import Mathlib

/-!
Verification of the cased-node client SDK core, as a shallow embedding of
the TypeScript source: JSON bodies and response classification in
`request` (client.ts), the `APIError` constructor (errors.ts), policy
credential resolution `getPolicyKey` (config.ts), the paginated cursor
returned by `requestPage` together with its navigation methods and the
cross-page async iterator (client.ts), and the two poll-until-settled
loops (export.ts and cli/session.ts).
-/

/-- Model of a decoded JSON value. Numbers are modelled as integers,
which covers every value the specified behaviour inspects. -/
inductive Json where
  | null : Json
  | bool (b : Bool) : Json
  | num (n : Int) : Json
  | str (s : String) : Json
  | arr (elems : List Json) : Json
  | obj (fields : List (String × Json)) : Json

/-- JavaScript truthiness of a JSON value: null, false, 0 and the empty
string are falsy, every array and object is truthy. -/
def jsTruthy : Json → Bool
  | Json.null => false
  | Json.bool b => b
  | Json.num n => n != 0
  | Json.str s => !s.isEmpty
  | Json.arr _ => true
  | Json.obj _ => true

mutual

/-- JavaScript string coercion of a JSON value, as performed by the
`Error` constructor and by template literals. Arrays stringify their
elements joined by commas; objects stringify to the usual tag. -/
def jsToString : Json → String
  | Json.null => "null"
  | Json.bool b => if b then "true" else "false"
  | Json.num n => toString n
  | Json.str s => s
  | Json.arr elems => String.intercalate "," (jsToStringElems elems)
  | Json.obj _ => "[object Object]"

/-- Element-wise coercion inside an array: a null element stringifies to
the empty string, as JavaScript Array.prototype.toString does. -/
def jsToStringElems : List Json → List String
  | [] => []
  | Json.null :: rest => "" :: jsToStringElems rest
  | v :: rest => jsToString v :: jsToStringElems rest

end

/-- Property read `value[key]` on a JSON value: defined for objects,
undefined (none) for every other value. -/
def jsGetField : Json → String → Option Json
  | Json.obj fields, key => fields.lookup key
  | _, _ => none

/-- Keys and values produced by a JavaScript for-in loop: own enumerable
properties of objects, indices of arrays and strings, nothing for
primitives. -/
def jsEnumerate : Json → List (String × Json)
  | Json.obj fields => fields
  | Json.arr elems => elems.enum.map (fun p => (toString p.1, p.2))
  | Json.str s => (s.toList.enum).map (fun p => (toString p.1, Json.str (String.mk [p.2])))
  | _ => []

/-- Read a field and keep it only when it is truthy, the combination the
source performs with `if (response.message)` style guards. -/
def truthyField (body : Json) (key : String) : Option Json :=
  match jsGetField body key with
  | some v => if jsTruthy v then some v else none
  | none => none

/-- The message computed by the APIError constructor in errors.ts: the
truthy `message` field coerced to a string; else, when `messages` is
truthy, its for-in entries rendered as "name value" and joined by
a comma and space; else the generic message. -/
def apiErrorMessage (body : Json) : String :=
  match truthyField body "message" with
  | some m => jsToString m
  | none =>
    match truthyField body "messages" with
    | some ms =>
      String.intercalate ", " ((jsEnumerate ms).map (fun p => p.1 ++ " " ++ jsToString p.2))
    | none => "unknown API error"

/-- An error surfaced to the caller of `request`: either a constructed
APIError carrying its message, or the TypeError raised when the APIError
constructor reads `.message` off a null argument. -/
inductive ThrownError where
  | apiError (message : String) : ThrownError
  | nullDeref : ThrownError
deriving DecidableEq

/-- Evaluation of `new APIError(data)` from errors.ts. When `data` is
null (either never parsed, or the parsed body was the JSON literal null)
the constructor dereferences null and a TypeError escapes instead. -/
def newAPIError (data : Option Json) : ThrownError :=
  match data with
  | none => ThrownError.nullDeref
  | some Json.null => ThrownError.nullDeref
  | some body => ThrownError.apiError (apiErrorMessage body)

/-- The slice of an HTTP response that `request` in client.ts inspects:
status code, the content-type and location headers, and the JSON
decoding of the raw body (bodies are assumed well-formed JSON). -/
structure HttpResponse where
  statusCode : Int
  contentType : Option String
  location : Option String
  body : Json

/-- The exact content-type string compared against in client.ts. -/
def jsonContentType : String := "application/json; charset=utf-8"

/-- The `data` variable of `request`: the body is parsed exactly when the
content-type header equals the exact string, otherwise it stays null. -/
def parsedPayload (r : HttpResponse) : Option Json :=
  if r.contentType = some jsonContentType then some r.body else none

/-- The observable outcome of `request` after the status switch: a
normal return of the payload, the synthesized redirect payload for 302,
a thrown error, or the assert failure on an unhandled status. -/
inductive Outcome where
  | payload (data : Option Json) : Outcome
  | redirect (location : Option String) : Outcome
  | raise (e : ThrownError) : Outcome
  | assertFail (statusCode : Int) : Outcome

/-- The statuses the switch in client.ts returns the payload for. -/
def successStatuses : List Int := [200, 201, 202, 204, 400, 404]

/-- The status switch of `request` in client.ts, applied to a received
response. -/
def request (r : HttpResponse) : Outcome :=
  let data := parsedPayload r
  if r.statusCode ∈ successStatuses then Outcome.payload data
  else if r.statusCode = 302 then Outcome.redirect r.location
  else if r.statusCode = 401 ∨ r.statusCode = 417 then Outcome.raise (newAPIError data)
  else Outcome.assertFail r.statusCode

/-- Keep a string only when it is truthy (present and nonempty), the
check the source spells `if (key) return key`. -/
def truthyOpt : Option String → Option String
  | some s => if s.isEmpty then none else some s
  | none => none

/-- The policy fields of the merged configuration that credential
resolution reads: the optional policy name, the named policy key map,
and the default policy key. -/
structure Config where
  name : Option String
  policyKeys : String → Option String
  policyKey : Option String

/-- Translation of `getPolicyKey` from config.ts, with the process
environment passed explicitly. A truthy `config.name` first tries the
named key and the name-keyed environment variable; then the default
`config.policyKey` is returned whenever it is non-null (even empty);
finally the CASED_POLICY_KEY environment variable is consulted. -/
def getPolicyKey (env : String → Option String) (config : Config) : Option String :=
  let fromNamed : Option String :=
    match config.name with
    | some n =>
      if n.isEmpty then none
      else
        match truthyOpt (config.policyKeys n) with
        | some k => some k
        | none => truthyOpt (env ("CASED_" ++ n ++ "_POLICY_KEY"))
    | none => none
  match fromNamed with
  | some k => some k
  | none =>
    match config.policyKey with
    | some k => some k
    | none => truthyOpt (env "CASED_POLICY_KEY")

/-- Policy-scope credential resolution as the claim states it: named key,
then the name-keyed environment variable, then `config.policyKey` if
non-null, then failure, consulting no further source. -/
def getPolicyKeyClaimed (env : String → Option String) (config : Config) : Option String :=
  let fromNamed : Option String :=
    match config.name with
    | some n =>
      if n.isEmpty then none
      else
        match truthyOpt (config.policyKeys n) with
        | some k => some k
        | none => truthyOpt (env ("CASED_" ++ n ++ "_POLICY_KEY"))
    | none => none
  match fromNamed with
  | some k => some k
  | none => config.policyKey

/-- Policy-scope credential resolution as amended: a flat priority chain
of named key, name-keyed environment variable, default policy key
(returned whenever non-null), and finally the CASED_POLICY_KEY
environment variable. -/
def getPolicyKeyAmended (env : String → Option String) (config : Config) : Option String :=
  let step1 : Option String :=
    match config.name with
    | some n => if n.isEmpty then none else truthyOpt (config.policyKeys n)
    | none => none
  let step2 : Option String :=
    match config.name with
    | some n => if n.isEmpty then none else truthyOpt (env ("CASED_" ++ n ++ "_POLICY_KEY"))
    | none => none
  (step1.orElse (fun _ => step2)).orElse (fun _ =>
    config.policyKey.orElse (fun _ => truthyOpt (env "CASED_POLICY_KEY")))

/-- The policy branch of `request` in client.ts: resolve the key, then
throw AuthenticationError when the result is falsy (null or empty). -/
def resolvePolicyCredential (env : String → Option String) (config : Config) :
    Except String String :=
  match getPolicyKey env config with
  | none => Except.error "AuthenticationError"
  | some key => if key.isEmpty then Except.error "AuthenticationError" else Except.ok key

/-- The raw shape of a paginated response, as asserted in client.ts. -/
structure PageResponse (T : Type) where
  results : List T
  total_count : Int
  total_pages : Int
deriving DecidableEq

/-- The state a page cursor captures: the effective page index that
produced it and the wrapped response. The original request parameters
are abstracted by the server function below. -/
structure Cursor (T : Type) where
  page : Int
  response : PageResponse T
deriving DecidableEq

/-- The effective page index, from `const page = options.page || 1`:
absent and 0 both become 1. -/
def effPage : Option Int → Int
  | none => 1
  | some p => if p = 0 then 1 else p

/-- Translation of `requestPage` from client.ts. The server function
stands for one dispatch of the original request parameters at a given
page index. The three assertions run in source order; the third,
`results.length >= 0`, cannot fail in the model as in the source. -/
def requestPage {T : Type} (server : Int → PageResponse T) (pageOpt : Option Int) :
    Except String (Cursor T) :=
  let page := effPage pageOpt
  let response := server page
  if response.total_count < 0 then Except.error "assert total_count >= 0"
  else if response.total_pages ≤ 0 then Except.error "assert total_pages > 0"
  else Except.ok ⟨page, response⟩

/-- The nextPage method of the returned cursor: resolve null once the
page index reaches total_pages, otherwise re-dispatch at page + 1. -/
def nextPage {T : Type} (server : Int → PageResponse T) (c : Cursor T) :
    Except String (Option (Cursor T)) :=
  if c.response.total_pages ≤ c.page then Except.ok none
  else (requestPage server (some (c.page + 1))).map some

/-- The previousPage method: resolve null at page index 1 or below,
otherwise re-dispatch at page - 1. -/
def previousPage {T : Type} (server : Int → PageResponse T) (c : Cursor T) :
    Except String (Option (Cursor T)) :=
  if c.page ≤ 1 then Except.ok none
  else (requestPage server (some (c.page - 1))).map some

/-- The firstPage method: always re-dispatch at page 1. -/
def firstPage {T : Type} (server : Int → PageResponse T) (c : Cursor T) :
    Except String (Cursor T) :=
  let _ := c
  requestPage server (some 1)

/-- The lastPage method: re-dispatch at the total_pages recorded in the
current response. -/
def lastPage {T : Type} (server : Int → PageResponse T) (c : Cursor T) :
    Except String (Cursor T) :=
  requestPage server (some c.response.total_pages)

/-- One observable event of the cross-page async iterator: an underlying
page request being issued, or an item being yielded. -/
inductive IterEvent (T : Type) where
  | pageRequest (page : Int) : IterEvent T
  | yield (item : T) : IterEvent T
deriving DecidableEq

/-- The body of the async generator in client.ts, unrolled one loop
iteration per unit of count: at index p it awaits a fresh
`requestPage` for page p, yields every item of the fetched page, then
continues at p + 1. -/
def asyncIteratorLoop {T : Type} (server : Int → PageResponse T) (p : Int) :
    Nat → Except String (List (IterEvent T))
  | 0 => Except.ok []
  | count + 1 =>
    match requestPage server (some p) with
    | Except.error e => Except.error e
    | Except.ok c =>
      match asyncIteratorLoop server (p + 1) count with
      | Except.error e => Except.error e
      | Except.ok rest =>
        Except.ok (IterEvent.pageRequest p :: (c.response.results.map IterEvent.yield ++ rest))

/-- Fully draining the async iterator of a cursor: the loop runs p from
the current page while p < total_pages (the bound taken from the
wrapped response), exactly (total_pages - page) iterations. -/
def asyncIterator {T : Type} (server : Int → PageResponse T) (c : Cursor T) :
    Except String (List (IterEvent T)) :=
  asyncIteratorLoop server c.page (c.response.total_pages - c.page).toNat

/-- A server holding a two page result set: page 1 has item "a", page 2
has item "b", two items and two pages in total. -/
def twoPageServer : Int → PageResponse String :=
  fun p => if p = 2 then ⟨["b"], 2, 2⟩ else ⟨["a"], 2, 2⟩

/-- The export job states from export.ts. -/
inductive ExportState where
  | pending : ExportState
  | processing : ExportState
  | successful : ExportState
  | errored : ExportState
deriving DecidableEq

/-- The CLI session states from cli/session.ts. -/
inductive SessionState where
  | requested : SessionState
  | approved : SessionState
  | denied : SessionState
  | timed_out : SessionState
  | canceled : SessionState
deriving DecidableEq

namespace Export

/-- Translation of `settled` from export.ts, run against the successive
states the fetches return. The result carries the outcome (normal return
or the thrown ExportError) with the number of fetches and sleeps
performed; none means the supplied state sequence ran out while the loop
was still polling. -/
def settled : List ExportState → Option (Except String Unit × Nat × Nat)
  | [] => none
  | s :: rest =>
    match s with
    | ExportState.pending | ExportState.processing =>
      match settled rest with
      | none => none
      | some (r, fetches, sleeps) => some (r, fetches + 1, sleeps + 1)
    | ExportState.successful => some (Except.ok (), 1, 0)
    | ExportState.errored => some (Except.error "export errored", 1, 0)

end Export

namespace Session

/-- Translation of `settled` from cli/session.ts, run against the
successive states the fetches return. The source loop sleeps and repeats
on "requested" and returns the session for every other state; it has no
error-raising path at all, so the result type carries none. -/
def settled : List SessionState → Option (SessionState × Nat × Nat)
  | [] => none
  | s :: rest =>
    match s with
    | SessionState.requested =>
      match settled rest with
      | none => none
      | some (r, fetches, sleeps) => some (r, fetches + 1, sleeps + 1)
    | _ => some (s, 1, 0)

end Session

/-- An environment defining only the default CASED_POLICY_KEY variable. -/
def envDefaultOnly : String → Option String :=
  fun key => if key = "CASED_POLICY_KEY" then some "cs_env_default" else none

/-- A merged config with no name and no keys set. -/
def emptyConfig : Config := ⟨none, fun _ => none, none⟩

/-- C1: the claim states that fully draining the cross-page async
iterator yields exactly total_count items via total_pages requests,
first yielding the current page items and then fetching pages
current+1, current+2 and so on. The source loop instead runs p from the
current page while p is strictly below total_pages, so on a two page
result set it re-requests page 1, yields only the single item of page 1
and never requests page 2: one request, one item, against total_count 2
and total_pages 2. This also contradicts the generator doc in the
source, which promises an iterator over all items fetching all pages. -/
theorem c1_async_iterator_drops_last_page :
    requestPage twoPageServer none = Except.ok ⟨1, ⟨["a"], 2, 2⟩⟩ ∧
    asyncIterator twoPageServer ⟨1, ⟨["a"], 2, 2⟩⟩ =
      Except.ok [IterEvent.pageRequest 1, IterEvent.yield "a"] ∧
    (twoPageServer 1).total_count = 2 ∧
    (twoPageServer 1).total_pages = 2 := by
  refine ⟨rfl, rfl, rfl, rfl⟩

/-- C2 counterexample: with no policy name, no named keys and a null
default policy key but the CASED_POLICY_KEY environment variable set,
the resolution order the claim states fails, while the source falls
back to the environment variable and succeeds. -/
theorem c2_env_fallback_counterexample :
    getPolicyKeyClaimed envDefaultOnly emptyConfig = none ∧
    getPolicyKey envDefaultOnly emptyConfig = some "cs_env_default" := by
  exact ⟨rfl, rfl⟩

/-- C2 (amended): policy credential resolution is the flat priority
chain named key, name-keyed environment variable, default policy key
whenever non-null, then the CASED_POLICY_KEY environment variable; the
request fails with AuthenticationError exactly when the resolved key is
missing or empty. -/
theorem c2_policy_resolution_order (env : String → Option String) (config : Config) :
    getPolicyKey env config = getPolicyKeyAmended env config ∧
    (resolvePolicyCredential env config = Except.error "AuthenticationError" ↔
      truthyOpt (getPolicyKey env config) = none) := by
  constructor
  · obtain ⟨name, keys, key⟩ := config
    cases name with
    | none => cases key <;> rfl
    | some n =>
      by_cases he : n.isEmpty
      · simp only [getPolicyKey, getPolicyKeyAmended, he, if_true]
        cases key <;> rfl
      · simp only [getPolicyKey, getPolicyKeyAmended, he, if_false]
        cases htk : truthyOpt (keys n) with
        | some k => rfl
        | none =>
          cases hte : truthyOpt (env ("CASED_" ++ n ++ "_POLICY_KEY")) with
          | some k => simp [htk, hte, Option.orElse]
          | none => cases key <;> simp [htk, hte, Option.orElse]
  · unfold resolvePolicyCredential truthyOpt
    cases getPolicyKey env config with
    | none => simp
    | some k =>
      by_cases hk : k.isEmpty <;> simp [hk]

/-- C2 witness: the amended resolution order applied to the concrete
environment and empty config of the counterexample scenario. -/
theorem c2_policy_resolution_order_witness :
    getPolicyKey envDefaultOnly emptyConfig = getPolicyKeyAmended envDefaultOnly emptyConfig ∧
    resolvePolicyCredential envDefaultOnly emptyConfig = Except.ok "cs_env_default" := by
  refine ⟨(c2_policy_resolution_order envDefaultOnly emptyConfig).1, ?_⟩
  have h := (c2_policy_resolution_order envDefaultOnly emptyConfig).2
  rfl

/-- C3 counterexample: the claim states that settle raises a
resource-specific error when a session fetch returns the
terminal-failure state denied. The source session loop has no
error-raising path at all: against a fetch returning denied it returns
the denied session as an ordinary value after exactly 1 fetch and 0
sleeps, so no error is raised. -/
theorem c3_session_denied_counterexample :
    Session.settled [SessionState.denied] = some (SessionState.denied, 1, 0) := rfl

/-- C3 (amended): for export jobs a fetch returning errored makes settle
raise ExportError after exactly 1 fetch and 0 sleeps; for authorization
sessions every state other than requested (approved, denied, timed_out,
canceled alike) makes settle stop polling and return the session
normally after exactly 1 fetch and 0 sleeps, raising nothing. -/
theorem c3_terminal_state_behaviour (rest : List ExportState) (s : SessionState)
    (srest : List SessionState) (hs : s ≠ SessionState.requested) :
    Export.settled (ExportState.errored :: rest) =
      some (Except.error "export errored", 1, 0) ∧
    Session.settled (s :: srest) = some (s, 1, 0) := by
  refine ⟨rfl, ?_⟩
  cases s
  · exact absurd rfl hs
  all_goals rfl

/-- C3 witness: the amended claim applied to an errored export fetch and
to a denied session fetch followed by further states. -/
theorem c3_terminal_state_behaviour_witness :
    Export.settled [ExportState.errored] =
      some (Except.error "export errored", 1, 0) ∧
    Session.settled [SessionState.denied, SessionState.requested] =
      some (SessionState.denied, 1, 0) := by
  exact c3_terminal_state_behaviour [] SessionState.denied [SessionState.requested]
    (by decide)

/-- C4: nextPage resolves to null exactly when the page index has
reached total_pages and otherwise re-dispatches at page + 1;
previousPage resolves to null exactly when the page index is at most 1
and otherwise re-dispatches at page - 1. -/
theorem c4_next_previous_navigation {T : Type} (server : Int → PageResponse T)
    (c : Cursor T) :
    (nextPage server c = Except.ok none ↔ c.response.total_pages ≤ c.page) ∧
    (c.page < c.response.total_pages →
      nextPage server c = (requestPage server (some (c.page + 1))).map some) ∧
    (previousPage server c = Except.ok none ↔ c.page ≤ 1) ∧
    (1 < c.page →
      previousPage server c = (requestPage server (some (c.page - 1))).map some) := by
  refine ⟨⟨?_, ?_⟩, ?_, ⟨?_, ?_⟩, ?_⟩
  · intro h
    by_contra hgt
    rw [nextPage, if_neg hgt] at h
    cases hrp : requestPage server (some (c.page + 1)) with
    | error e => rw [hrp] at h; simp [Except.map] at h
    | ok c2 => rw [hrp] at h; simp [Except.map] at h
  · intro h; rw [nextPage, if_pos h]
  · intro h; rw [nextPage, if_neg (by omega)]
  · intro h
    by_contra hgt
    rw [previousPage, if_neg hgt] at h
    cases hrp : requestPage server (some (c.page - 1)) with
    | error e => rw [hrp] at h; simp [Except.map] at h
    | ok c2 => rw [hrp] at h; simp [Except.map] at h
  · intro h; rw [previousPage, if_pos h]
  · intro h; rw [previousPage, if_neg (by omega)]

/-- C4 witness: on a three page result set, nextPage at page 3 and
previousPage at page 1 resolve to null, and nextPage at page 1 fetches
page 2. -/
theorem c4_next_previous_navigation_witness :
    nextPage (fun _ => (⟨["x"], 3, 3⟩ : PageResponse String)) ⟨3, ⟨["x"], 3, 3⟩⟩ =
      Except.ok none ∧
    previousPage (fun _ => (⟨["x"], 3, 3⟩ : PageResponse String)) ⟨1, ⟨["x"], 3, 3⟩⟩ =
      Except.ok none ∧
    nextPage (fun _ => (⟨["x"], 3, 3⟩ : PageResponse String)) ⟨1, ⟨["x"], 3, 3⟩⟩ =
      Except.ok (some ⟨2, ⟨["x"], 3, 3⟩⟩) := by
  refine ⟨?_, ?_, ?_⟩
  · exact (c4_next_previous_navigation (fun _ => ⟨["x"], 3, 3⟩)
      ⟨3, ⟨["x"], 3, 3⟩⟩).1.mpr (by decide)
  · exact (c4_next_previous_navigation (fun _ => ⟨["x"], 3, 3⟩)
      ⟨1, ⟨["x"], 3, 3⟩⟩).2.2.1.mpr (by decide)
  · have h := (c4_next_previous_navigation (fun _ => (⟨["x"], 3, 3⟩ : PageResponse String))
      ⟨1, ⟨["x"], 3, 3⟩⟩).2.1 (by decide)
    rw [h]; rfl

/-- C5: constructing a cursor succeeds exactly when the fetched response
satisfies the PageResponse invariant: total_count nonnegative,
total_pages positive, and the (always nonnegative) results length; a
violating response makes requestPage fail with the assert error instead
of returning a cursor. -/
theorem c5_page_response_invariant {T : Type} (server : Int → PageResponse T)
    (pageOpt : Option Int) :
    (requestPage server pageOpt).isOk = true ↔
      (0 ≤ (server (effPage pageOpt)).total_count ∧
       0 < (server (effPage pageOpt)).total_pages ∧
       (0 : Int) ≤ ((server (effPage pageOpt)).results.length : Int)) := by
  unfold requestPage
  by_cases h1 : (server (effPage pageOpt)).total_count < 0
  · simp only [h1, if_true]
    constructor
    · intro h; cases h
    · intro h; omega
  · by_cases h2 : (server (effPage pageOpt)).total_pages ≤ 0
    · simp only [h1, if_false, h2, if_true]
      constructor
      · intro h; cases h
      · intro h; omega
    · simp only [h1, if_false, h2]
      constructor
      · intro _
        refine ⟨by omega, by omega, by positivity⟩
      · intro _; rfl

/-- C5 witness: the invariant equivalence applied to the two page
server, whose first page satisfies the invariant. -/
theorem c5_page_response_invariant_witness :
    (requestPage twoPageServer none).isOk = true := by
  exact (c5_page_response_invariant twoPageServer none).mpr (by decide)

/-- C6: when every state before the first successful fetch is pending or
processing, the poll loop fetches once per state and sleeps exactly once
after each pending classification, returning on the first successful
fetch without sleeping after it: length of the pending prefix plus one
fetches, and one sleep per pending state. -/
theorem c6_poll_until_success (pre rest : List ExportState)
    (h : ∀ s ∈ pre, s = ExportState.pending ∨ s = ExportState.processing) :
    Export.settled (pre ++ ExportState.successful :: rest) =
      some (Except.ok (), pre.length + 1, pre.length) := by
  induction pre with
  | nil => rfl
  | cons s tl ih =>
    have htl := ih (fun x hx => h x (List.mem_cons_of_mem s hx))
    rcases h s (List.mem_cons_self s tl) with hs | hs <;> subst hs <;>
      simp [Export.settled, htl, List.length_cons]

/-- C6 witness: against the fetch sequence pending, processing,
successful the loop returns normally after exactly 3 fetches and 2
sleeps. -/
theorem c6_poll_until_success_witness :
    Export.settled [ExportState.pending, ExportState.processing, ExportState.successful] =
      some (Except.ok (), 3, 2) := by
  have h := c6_poll_until_success [ExportState.pending, ExportState.processing] []
    (by decide)
  exact h

/-- C7: every response with a status among 200, 201, 202, 204, 400 and
404 is returned as an ordinary payload, never raised: the body is the
parsed JSON when the response declares the exact JSON content type and a
null payload otherwise, so 400 and 404 pass through to the caller. -/
theorem c7_success_passthrough (r : HttpResponse)
    (h : r.statusCode ∈ successStatuses) :
    request r = Outcome.payload (parsedPayload r) ∧
    (r.contentType = some jsonContentType → request r = Outcome.payload (some r.body)) ∧
    (r.contentType ≠ some jsonContentType → request r = Outcome.payload none) := by
  refine ⟨?_, ?_, ?_⟩
  · simp [request, h]
  · intro hct; simp [request, h, parsedPayload, hct]
  · intro hct; simp [request, h, parsedPayload, hct]

/-- C7 witness: a 400 response without a JSON content type returns a
null payload as an ordinary value. -/
theorem c7_success_passthrough_witness :
    request ⟨400, some "text/html", none, Json.null⟩ = Outcome.payload none := by
  exact (c7_success_passthrough ⟨400, some "text/html", none, Json.null⟩
    (by decide)).2.2 (by simp [jsonContentType])

/-- C8: a 401 or 417 response with a parsed JSON body raises APIError
with the truthy message field verbatim; else, when the body carries a
messages mapping, with its entries flattened to field followed by the
joined strings and comma-separated; else with the generic unknown API
error message. -/
theorem c8_api_error_message (r : HttpResponse)
    (hst : r.statusCode = 401 ∨ r.statusCode = 417)
    (hct : r.contentType = some jsonContentType)
    (hbody : r.body ≠ Json.null) :
    (∀ m, truthyField r.body "message" = some m →
      request r = Outcome.raise (ThrownError.apiError (jsToString m))) ∧
    (truthyField r.body "message" = none →
      ∀ fields, truthyField r.body "messages" = some (Json.obj fields) →
        request r = Outcome.raise (ThrownError.apiError
          (String.intercalate ", "
            (fields.map (fun p => p.1 ++ " " ++ jsToString p.2))))) ∧
    (truthyField r.body "message" = none →
      truthyField r.body "messages" = none →
      request r = Outcome.raise (ThrownError.apiError "unknown API error")) := by
  have hnot : r.statusCode ∉ successStatuses := by
    rcases hst with h | h <;> rw [h] <;> decide
  have h302 : ¬ r.statusCode = 302 := by
    rcases hst with h | h <;> rw [h] <;> decide
  have hr : request r = Outcome.raise (newAPIError (parsedPayload r)) := by
    simp [request, hnot, h302, hst]
  have hp : parsedPayload r = some r.body := by simp [parsedPayload, hct]
  have hne : newAPIError (some r.body) = ThrownError.apiError (apiErrorMessage r.body) := by
    cases hb : r.body
    · exact absurd hb hbody
    all_goals rfl
  have hout : request r = Outcome.raise (ThrownError.apiError (apiErrorMessage r.body)) := by
    rw [hr, hp, hne]
  refine ⟨?_, ?_, ?_⟩
  · intro m hm
    rw [hout]
    simp [apiErrorMessage, hm]
  · intro hmiss fields hms
    rw [hout]
    simp [apiErrorMessage, hmiss, hms, jsEnumerate]
  · intro hmiss hnoms
    rw [hout]
    simp [apiErrorMessage, hmiss, hnoms]

/-- C8 witness: a 401 response whose body holds messages mapping field
to the list with the single string bad raises APIError with the message
field bad. -/
theorem c8_api_error_message_witness :
    request ⟨401, some jsonContentType, none,
        Json.obj [("messages", Json.obj [("field", Json.arr [Json.str "bad"])])]⟩ =
      Outcome.raise (ThrownError.apiError "field bad") := by
  have h := c8_api_error_message
    ⟨401, some jsonContentType, none,
      Json.obj [("messages", Json.obj [("field", Json.arr [Json.str "bad"])])]⟩
    (Or.inl rfl) rfl (fun hx => Json.noConfusion hx)
  have h2 := h.2.1 rfl [("field", Json.arr [Json.str "bad"])] rfl
  rw [h2]
  rfl

/-- C9: a 401 or 417 response whose content type is not exactly the JSON
content type string never has its body parsed, and the null payload
makes the APIError constructor dereference null: the caller observes the
resulting TypeError, not an APIError. -/
theorem c9_non_json_error_branch (r : HttpResponse)
    (hst : r.statusCode = 401 ∨ r.statusCode = 417)
    (hct : r.contentType ≠ some jsonContentType) :
    parsedPayload r = none ∧
    request r = Outcome.raise ThrownError.nullDeref ∧
    ∀ msg, request r ≠ Outcome.raise (ThrownError.apiError msg) := by
  have hp : parsedPayload r = none := by simp [parsedPayload, hct]
  have hnot : r.statusCode ∉ successStatuses := by
    rcases hst with h | h <;> rw [h] <;> decide
  have h302 : ¬ r.statusCode = 302 := by
    rcases hst with h | h <;> rw [h] <;> decide
  have hr : request r = Outcome.raise (newAPIError (parsedPayload r)) := by
    simp [request, hnot, h302, hst]
  refine ⟨hp, ?_, ?_⟩
  · rw [hr, hp]; rfl
  · intro msg
    rw [hr, hp]
    simp [newAPIError]

/-- C9 witness: a 401 response declaring application/json without the
charset parameter, though its body carries a message, surfaces the null
dereference TypeError rather than an APIError. -/
theorem c9_non_json_error_branch_witness :
    request ⟨401, some "application/json", none,
        Json.obj [("message", Json.str "oops")]⟩ =
      Outcome.raise ThrownError.nullDeref := by
  exact (c9_non_json_error_branch
    ⟨401, some "application/json", none, Json.obj [("message", Json.str "oops")]⟩
    (Or.inl rfl) (by simp [jsonContentType])).2.1

/-- C10: the body is parsed exactly when the content-type header equals
the exact string application/json with the utf-8 charset parameter; any
other content type, including plain application/json, yields a null
payload for the passthrough statuses. -/
theorem c10_exact_content_type_match (r : HttpResponse) :
    ((parsedPayload r).isSome = true ↔ r.contentType = some jsonContentType) ∧
    (r.statusCode ∈ successStatuses → r.contentType = some "application/json" →
      request r = Outcome.payload none) := by
  constructor
  · unfold parsedPayload
    split
    · simp_all
    · simp_all
  · intro hst hct
    have hne : r.contentType ≠ some jsonContentType := by
      rw [hct]; simp [jsonContentType]
    simp [request, hst, parsedPayload, hne]

/-- C10 witness: a 200 response declaring plain application/json is
returned with a null payload. -/
theorem c10_exact_content_type_match_witness :
    request ⟨200, some "application/json", none, Json.num 5⟩ = Outcome.payload none := by
  exact (c10_exact_content_type_match
    ⟨200, some "application/json", none, Json.num 5⟩).2 (by decide)
    (by rfl)
